import Mathlib

/-!
Verification of the bin-collection reminder script (`binchecker.py`).

The script's pure logic is shallowly embedded below:
* HTML pages are abstracted to the structured data the script extracts
  from them (option lists, text cells of collection cards, token inputs);
* network requests are abstracted to their outcomes (`ReqOutcome`):
  a status-code response, a certificate (SSL) failure, or another
  transport failure;
* `datetime.strptime(_, "%d %B %Y")` and `strftime` are modelled
  faithfully on a plain calendar-date structure;
* side effects (Telegram sends, the schedule being resolved) are recorded
  in an explicit event trace.
-/

/- ===== basic string helpers (models of Python primitives) ===== -/

/-- Python `s.lower()` (ASCII model, as a plain list map so that proofs
    can evaluate it). -/
def pyLower (s : String) : String := ⟨s.data.map Char.toLower⟩

/-- Python `s.strip()`: drop leading and trailing whitespace. -/
def pyStrip (s : String) : String :=
  ⟨((s.data.dropWhile Char.isWhitespace).reverse.dropWhile
      Char.isWhitespace).reverse⟩

/-- Model of Python `needle in hay` prefix test at the head of `hay`. -/
def startsWithL : List Char → List Char → Bool
  | [], _ => true
  | _ :: _, [] => false
  | a :: as, b :: bs => a == b && startsWithL as bs

/-- Model of Python substring containment `needle in hay` on char lists. -/
def hasSub (needle : List Char) : List Char → Bool
  | [] => startsWithL needle []
  | h :: t => startsWithL needle (h :: t) || hasSub needle t

/-- Python `needle in hay` for strings (case-sensitive). -/
def sContains (hay needle : String) : Bool :=
  hasSub needle.data hay.data

/-- Case-insensitive containment, as in `needle in label.lower()` with a
    pre-lowered needle: both sides are lowered. -/
def sContainsCI (label needle : String) : Bool :=
  hasSub (pyLower needle).data (pyLower label).data

/-- Model of Python `"sep".join(lines)`. -/
def strJoin (sep : String) : List String → String
  | [] => ""
  | [x] => x
  | x :: y :: xs => x ++ sep ++ strJoin sep (y :: xs)

/- ===== calendar dates (model of `datetime.date`) ===== -/

/-- A calendar date as produced by `datetime.strptime(..).date()`. -/
structure Date where
  year : Nat
  month : Nat
  day : Nat
deriving DecidableEq, Repr

def isLeapYear (y : Nat) : Bool :=
  (y % 4 == 0 && y % 100 != 0) || y % 400 == 0

def daysInMonth (y m : Nat) : Nat :=
  if m = 2 then (if isLeapYear y then 29 else 28)
  else if m = 4 ∨ m = 6 ∨ m = 9 ∨ m = 11 then 30
  else 31

def digitsVal (ds : List Char) : Nat :=
  ds.foldl (fun a c => a * 10 + (c.toNat - '0'.toNat)) 0

/-- The twelve English month names recognised by `%B` (matched
    case-insensitively by `strptime`). -/
def monthNames : List (String × Nat) :=
  [("january", 1), ("february", 2), ("march", 3), ("april", 4),
   ("may", 5), ("june", 6), ("july", 7), ("august", 8),
   ("september", 9), ("october", 10), ("november", 11), ("december", 12)]

/-- Match a month name (case-insensitively) at the head of `cs`,
    returning its number and the remaining characters. -/
def matchMonth (cs : List Char) : Option (Nat × List Char) :=
  monthNames.findSome? fun nm =>
    let n := nm.1.data
    if (cs.take n.length).map Char.toLower == n then
      some (nm.2, cs.drop n.length)
    else none

/-- Model of `datetime.strptime(s, "%d %B %Y").date()`:
    a 1-2 digit day in 1..31, whitespace, a full English month name
    (case-insensitive), whitespace, exactly four year digits, end of
    input; the resulting day must exist in the resulting month.
    Returns `none` where `strptime`/`date` raises `ValueError`. -/
def parseDateUK (s : String) : Option Date :=
  let cs := s.data
  let ds := cs.takeWhile Char.isDigit
  let r1 := cs.dropWhile Char.isDigit
  if ds.length = 0 ∨ 2 < ds.length then none
  else
    let day := digitsVal ds
    if day = 0 ∨ 31 < day then none
    else
      let ws := r1.takeWhile Char.isWhitespace
      let r2 := r1.dropWhile Char.isWhitespace
      if ws.length = 0 then none
      else
        match matchMonth r2 with
        | none => none
        | some (m, r3) =>
          let ws2 := r3.takeWhile Char.isWhitespace
          let r4 := r3.dropWhile Char.isWhitespace
          if ws2.length = 0 then none
          else if r4.length = 4 ∧ r4.all Char.isDigit then
            let y := digitsVal r4
            if 1 ≤ y ∧ day ≤ daysInMonth y m then some ⟨y, m, day⟩ else none
          else none

/- ===== strftime("%a %d %b") (used by the multi-bin template) ===== -/

def daysBeforeMonth (y m : Nat) : Nat :=
  (List.range (m - 1)).foldl (fun a i => a + daysInMonth y (i + 1)) 0

/-- Proleptic-Gregorian day number (0001-01-01 is day 1, a Monday),
    as used by `datetime.date.weekday`. -/
def rataDie (d : Date) : Nat :=
  365 * (d.year - 1) + (d.year - 1) / 4 - (d.year - 1) / 100
    + (d.year - 1) / 400 + daysBeforeMonth d.year d.month + d.day

/-- 0 = Monday, ..., 6 = Sunday. -/
def weekdayIdx (d : Date) : Nat := (rataDie d + 6) % 7

def dayAbbrev : Nat → String
  | 0 => "Mon" | 1 => "Tue" | 2 => "Wed" | 3 => "Thu"
  | 4 => "Fri" | 5 => "Sat" | _ => "Sun"

def monthAbbrev : Nat → String
  | 1 => "Jan" | 2 => "Feb" | 3 => "Mar" | 4 => "Apr"
  | 5 => "May" | 6 => "Jun" | 7 => "Jul" | 8 => "Aug"
  | 9 => "Sep" | 10 => "Oct" | 11 => "Nov" | _ => "Dec"

def pad2 (n : Nat) : String :=
  if n < 10 then "0" ++ toString n else toString n

/-- Model of `d.strftime("%a %d %b")` (C locale). -/
def strftimeAdB (d : Date) : String :=
  dayAbbrev (weekdayIdx d) ++ " " ++ pad2 d.day ++ " " ++ monthAbbrev d.month

/- ===== data model ===== -/

/-- One record produced by `extract_next_collections`
    (the dict `{"type": .., "day": .., "date": .., "raw": ..}`). -/
structure CollectionRecord where
  type : String
  day : String
  date : Date
  raw : String
deriving DecidableEq, Repr

/-- One `<option>` of the address dropdown: its (possibly absent)
    `value` attribute and its visible label text. -/
structure Opt where
  value : Option String
  label : String
deriving DecidableEq, Repr

/-- Python `(opt.get("value") or "").strip()`. -/
def trimVal (o : Opt) : String := pyStrip (o.value.getD "")

/- ===== resilient transport (safe_get / safe_post) ===== -/

/-- Outcome of one HTTP attempt: a response with a status code, an SSL
    certificate failure (`requests.exceptions.SSLError`), or another
    transport failure (timeout, connection refused, ...). -/
inductive ReqOutcome
  | resp (status : Nat)
  | sslErr
  | connErr
deriving DecidableEq, Repr

/-- What one request would do when attempted strictly and when attempted
    with `verify=False`. -/
structure Net where
  strict : ReqOutcome
  insecure : ReqOutcome
deriving DecidableEq, Repr

inductive ReqError
  | httpError (status : Nat)
  | sslError
  | connError
deriving DecidableEq, Repr

/-- Model of `requests.Response.raise_for_status`: 4xx/5xx raise. -/
def raise_for_status (status : Nat) : Except ReqError Nat :=
  if 400 ≤ status ∧ status < 600 then .error (.httpError status) else .ok status

/-- One attempt: perform the request, then `raise_for_status`. -/
def attemptReq : ReqOutcome → Except ReqError Nat
  | .resp s => raise_for_status s
  | .sslErr => .error .sslError
  | .connErr => .error .connError

/-- `safe_get`: try strictly; on `SSLError`, if the insecure fallback is
    allowed, retry once with `verify=False`. The second component records
    the attempts made (`true` = verification enabled). -/
def safe_get (allow_insecure : Bool) (net : Net) :
    Except ReqError Nat × List Bool :=
  match attemptReq net.strict with
  | .ok s => (.ok s, [true])
  | .error .sslError =>
    if allow_insecure then (attemptReq net.insecure, [true, false])
    else (.error .sslError, [true])
  | .error e => (.error e, [true])

/-- `safe_post`: textually identical to `safe_get` in the source. -/
def safe_post (allow_insecure : Bool) (net : Net) :
    Except ReqError Nat × List Bool :=
  match attemptReq net.strict with
  | .ok s => (.ok s, [true])
  | .error .sslError =>
    if allow_insecure then (attemptReq net.insecure, [true, false])
    else (.error .sslError, [true])
  | .error e => (.error e, [true])

/- ===== run gate ===== -/

/-- `should_run_now_on_github_actions`, with the environment lookups and
    the London wall clock supplied as arguments. -/
def should_run_now_on_github_actions
    (github_actions github_event : String) (hour minute : Nat) : Bool :=
  if github_actions ≠ "true" then true
  else if github_event ≠ "schedule" then true
  else hour == 19 && decide (minute < 15)

/- ===== due-date filter (main, lines 228-230) ===== -/

/-- `watched = [c for c in collections if c["type"] in WATCH_FOR]`;
    `due = [c for c in watched if c["date"] == tomorrow]`. -/
def select_due (records : List CollectionRecord) (watch : List String)
    (reference : Date) : List CollectionRecord :=
  (records.filter fun c => watch.contains c.type).filter
    fun c => c.date == reference

/- ===== address selection (select_address_option) ===== -/

/-- Result of `select_address_option`: the selected `(value, label)`, or
    the `RuntimeError` raised when the dropdown is missing, or the
    `RuntimeError` raised when nothing matched — the latter carrying the
    `(label, value)` pairs printed as a diagnostic before raising. -/
inductive SelectResult
  | found (value label : String)
  | noDropdown
  | noMatch (printed : List (String × String))
deriving DecidableEq, Repr

/-- The `for opt in sel.select("option")` loop, with the accumulated
    `options` list made explicit. `needle` is the pre-lowered match text. -/
def selectLoop (needle : String) : List Opt → List (String × String) → SelectResult
  | [], acc => .noMatch acc
  | o :: rest, acc =>
    let value := trimVal o
    if value ≠ "" then
      if hasSub needle.data (pyLower o.label).data then .found value o.label
      else selectLoop needle rest (acc ++ [(o.label, value)])
    else selectLoop needle rest acc

/-- `select_address_option(soup, label_match)`; the dropdown is `none`
    when `select[name="address"]` is absent from the page. -/
def select_address_option (dropdown : Option (List Opt)) (label_match : String) :
    SelectResult :=
  match dropdown with
  | none => .noDropdown
  | some opts => selectLoop (pyLower label_match) opts []

/-- The predicate the loop selects by: a nonempty trimmed `value`
    attribute and a case-insensitive label match. -/
def optMatches (label_match : String) (o : Opt) : Bool :=
  (trimVal o != "") && sContainsCI o.label label_match

/-- Stated from the (amended) spec's words: take the first option in
    document order with a nonempty trimmed value whose label contains the
    match text case-insensitively; if there is none, fail after
    enumerating the `(label, value)` pairs of all nonempty-valued options. -/
def addressSpecSelect (opts : List Opt) (label_match : String) : SelectResult :=
  match opts.find? (optMatches label_match) with
  | some o => .found (trimVal o) o.label
  | none => .noMatch (opts.filterMap fun o =>
      if trimVal o = "" then none else some (o.label, trimVal o))

/- ===== schedule parser (extract_next_collections) ===== -/

/-- What one `div.ncc-bin-calendar` card contributes: its first three
    text cells become type/day/date-text, provided the date parses. -/
def cardRecord (ps : List String) : Option CollectionRecord :=
  match ps with
  | t :: d :: dtx :: _ =>
    match parseDateUK dtx with
    | some dv => some ⟨t, d, dv, dtx⟩
    | none => none
  | _ => none

/-- `extract_next_collections`, over the cards' text cells: cards with
    fewer than three cells are skipped (`continue`), as are cards whose
    third cell fails to parse (`except ValueError: continue`). -/
def extract_next_collections : List (List String) → List CollectionRecord
  | [] => []
  | card :: rest =>
    if card.length < 3 then extract_next_collections rest
    else
      match card with
      | t :: d :: dtx :: _ =>
        match parseDateUK dtx with
        | none => extract_next_collections rest
        | some dv => ⟨t, d, dv, dtx⟩ :: extract_next_collections rest
      | _ => extract_next_collections rest

/- ===== notification formatter (build_reminder_message) ===== -/

/-- The single-record template (the string literal concatenation of
    lines 55-60 of the source, including its mojibake characters). -/
def single_template (b : CollectionRecord) : String :=
  "ðŸ—‘ï¸ BIN DAY TOMORROW\n\n" ++ b.type ++ " bin\n" ++ "ðŸ“… "
    ++ b.day ++ " " ++ b.raw ++ "\n\n" ++ "Put it out tonight ðŸ‘Œ"

/-- One line of the multi-record template:
    `f"{b['type']} bin â€” {short}"` with `short = date.strftime("%a %d %b")`. -/
def multi_line (b : CollectionRecord) : String :=
  b.type ++ " bin â€” " ++ strftimeAdB b.date

/-- The multi-record template (header, blank, one line per record, blank,
    plural footer, joined with newlines). -/
def multi_template (bs : List CollectionRecord) : String :=
  strJoin "\n" (["ðŸ—‘ï¸ BIN DAY TOMORROW", ""] ++ bs.map multi_line
    ++ ["", "Put them out tonight ðŸ‘Œ"])

/-- `build_reminder_message`: `len(due_bins) == 1` picks the single
    template, anything else the multi template. -/
def build_reminder_message : List CollectionRecord → String
  | [b] => single_template b
  | bs => multi_template bs

/- ===== form-state walker (main, steps 1-3) ===== -/

/-- The parsed content of the entry page: the HTTP status of the (already
    `raise_for_status`-checked) response, the page text, and the
    `input[name="_csrf"]` element (`none` = absent; `some none` = present
    without a value attribute). -/
structure EntryPage where
  status : Nat
  text : String
  csrfInput : Option (Option String)
deriving Repr

/-- The parsed content of the address-selection page: its CSRF input, its
    first `<form>` (`none` = no form; `some none` = form without an
    `action` attribute), and the `select[name="address"]` options
    (`none` = dropdown absent). -/
structure AddressPage where
  csrfInput : Option (Option String)
  form : Option (Option String)
  dropdown : Option (List Opt)
deriving Repr

/-- The `RuntimeError`s `main` can raise, plus transport errors. -/
inductive RunErr
  | transport (e : ReqError)
  | siteBlocked
  | csrfMissing
  | formActionMissing
  | dropdownMissing
  | addressNotMatched
  | missingCreds
  | notificationFailed
deriving DecidableEq, Repr

/-- The marker phrase whose absence from the entry page aborts the run. -/
def markerPhrase : String := "Check your bin collection dates"

/-- `get_csrf`: fail unless the token input exists and has a truthy
    (nonempty) value. -/
def get_csrf (inp : Option (Option String)) : Except RunErr String :=
  match inp with
  | some (some v) => if v = "" then .error .csrfMissing else .ok v
  | _ => .error .csrfMissing

/-- `form.get("action")` through the falsy test
    `if not form or not form.get("action")`. -/
def formAction : Option (Option String) → Option String
  | some (some a) => if a = "" then none else some a
  | _ => none

/-- The three-step navigation of `main` (lines 180-223), with each
    network request abstracted to its outcome. The schedule page is
    abstracted to the text cells of its collection cards. -/
def resolveSchedulePage (entry_fetch : Except ReqError EntryPage)
    (postcode_fetch : Except ReqError AddressPage)
    (address_fetch : Except ReqError (List (List String)))
    (label_match : String) : Except RunErr (List (List String)) :=
  match entry_fetch with
  | .error e => .error (.transport e)
  | .ok page0 =>
    if page0.status == 404 || !(sContains page0.text markerPhrase) then
      .error .siteBlocked
    else
      match get_csrf page0.csrfInput with
      | .error e => .error e
      | .ok _csrf0 =>
        match postcode_fetch with
        | .error e => .error (.transport e)
        | .ok page1 =>
          match get_csrf page1.csrfInput with
          | .error e => .error e
          | .ok _csrf1 =>
            match formAction page1.form with
            | none => .error .formActionMissing
            | some _action =>
              match select_address_option page1.dropdown label_match with
              | .noDropdown => .error .dropdownMissing
              | .noMatch _ => .error .addressNotMatched
              | .found _ _ =>
                match address_fetch with
                | .error e => .error (.transport e)
                | .ok doc => .ok doc

/-- "The token input is absent, or present without a value, or its value
    is empty" — the condition under which `get_csrf` raises. -/
def csrfBad (i : Option (Option String)) : Prop :=
  i = none ∨ i = some none ∨ i = some (some "")

/- ===== the whole run (main) ===== -/

/-- Externally visible events of one run, in order: each call of
    `send_telegram`, and the schedule page having been resolved. -/
inductive Event
  | sendAttempt
  | scheduleResolved
deriving DecidableEq, Repr

/-- Everything one run of `main` reads from its environment: the trigger
    signals, the Telegram configuration and whether the Telegram POST
    would succeed, the outcomes of the three navigation requests, the
    watch set, the address match text, and tomorrow's date. -/
structure RunEnv where
  github_actions : String
  github_event : String
  hour : Nat
  minute : Nat
  force_test : Bool
  bot_token : String
  chat_id : String
  telegram_ok : Bool
  entry_fetch : Except ReqError EntryPage
  postcode_fetch : Except ReqError AddressPage
  address_fetch : Except ReqError (List (List String))
  watch_for : List String
  address_label_match : String
  tomorrow : Date

/-- `send_telegram`: raise on missing credentials, then POST and
    `raise_for_status`. -/
def send_telegram (env : RunEnv) (_message : String) : Except RunErr Unit :=
  if env.bot_token = "" ∨ env.chat_id = "" then .error .missingCreds
  else if env.telegram_ok then .ok () else .error .notificationFailed

def testMessage : String :=
  "âœ… Binchecker test: workflow ran and Telegram is working."

/-- One run of the script entry point `main`: the result (normal return or uncaught exception)
    together with the trace of externally visible events. -/
def mainRun (env : RunEnv) : Except RunErr Unit × List Event :=
  if should_run_now_on_github_actions env.github_actions env.github_event
      env.hour env.minute = false then
    (.ok (), [])
  else
    match (if env.force_test then
        (send_telegram env testMessage, [Event.sendAttempt])
      else (.ok (), [])) with
    | (.error e, tr) => (.error e, tr)
    | (.ok _, tr0) =>
      match resolveSchedulePage env.entry_fetch env.postcode_fetch
          env.address_fetch env.address_label_match with
      | .error e => (.error e, tr0)
      | .ok doc =>
        let tr1 := tr0 ++ [Event.scheduleResolved]
        let collections := extract_next_collections doc
        if collections.isEmpty then (.ok (), tr1)
        else
          let due := select_due collections env.watch_for env.tomorrow
          if due.isEmpty then (.ok (), tr1)
          else (send_telegram env (build_reminder_message due),
                tr1 ++ [Event.sendAttempt])

/- ===== concrete runs used as witnesses and counterexamples ===== -/

/-- The schedule cards used by the concrete runs below. -/
def sampleDoc : List (List String) :=
  [["General", "Wednesday", "25 February 2026"]]

/-- A fully successful run without the force-test flag: one General bin
    due tomorrow. -/
def envReminder : RunEnv :=
  { github_actions := "", github_event := "", hour := 0, minute := 0,
    force_test := false, bot_token := "t", chat_id := "c",
    telegram_ok := true,
    entry_fetch := .ok ⟨200, "Check your bin collection dates",
      some (some "tok0")⟩,
    postcode_fetch := .ok ⟨some (some "tok1"), some (some "/address-select"),
      some [⟨some "42", "The Bastle, Main St"⟩]⟩,
    address_fetch := .ok sampleDoc,
    watch_for := ["General"], address_label_match := "The Bastle",
    tomorrow := ⟨2026, 2, 25⟩ }

/-- The same successful scrape, but nothing due tomorrow and no
    force-test flag. -/
def envQuiet : RunEnv :=
  { envReminder with tomorrow := ⟨2026, 2, 26⟩ }

/-- Nothing due tomorrow but the force-test flag is set. -/
def envQuietForced : RunEnv :=
  { envQuiet with force_test := true }

/-- Force-test flag set and the very first request fails. -/
def envEntryDownForced : RunEnv :=
  { envReminder with force_test := true, entry_fetch := .error .connError }

/-- The loop is the spec-side first-match search, for any starting
    accumulator. -/
theorem selectLoop_eq_spec (lm : String) (opts : List Opt)
    (acc : List (String × String)) :
    selectLoop (pyLower lm) opts acc =
      match opts.find? (optMatches lm) with
      | some o => .found (trimVal o) o.label
      | none => .noMatch (acc ++ opts.filterMap fun o =>
          if trimVal o = "" then none else some (o.label, trimVal o)) := by
  induction opts generalizing acc with
  | nil => simp [selectLoop]
  | cons o rest ih =>
    by_cases hv : trimVal o = ""
    · have hm : optMatches lm o = false := by
        simp [optMatches, hv]
      simp [selectLoop, hv, List.find?, hm, ih, sContainsCI]
    · by_cases hc : hasSub (pyLower lm).data (pyLower o.label).data = true
      · have hm : optMatches lm o = true := by
          simp [optMatches, hv, sContainsCI, hc]
        simp [selectLoop, hv, hc, List.find?, hm]
      · have hm : optMatches lm o = false := by
          simp [optMatches, hv, sContainsCI]
          simpa using hc
        simp [selectLoop, hv, hc, List.find?, hm, ih, List.append_assoc]

/-- `select_address_option` on a present dropdown equals the spec-side
    selection. -/
theorem select_eq_spec (opts : List Opt) (lm : String) :
    select_address_option (some opts) lm = addressSpecSelect opts lm := by
  have h := selectLoop_eq_spec lm opts []
  simpa [select_address_option, addressSpecSelect] using h

/-- Dropping the empty-valued options does not change where the
    first-match search lands. -/
theorem find?_filter_nonempty (opts : List Opt) (lm : String) :
    (opts.filter fun o => trimVal o != "").find? (optMatches lm) =
      opts.find? (optMatches lm) := by
  induction opts with
  | nil => rfl
  | cons o rest ih =>
    by_cases hv : trimVal o = ""
    · have hm : optMatches lm o = false := by simp [optMatches, hv]
      simp [List.filter, List.find?, hv, hm, ih]
    · have hb : (trimVal o != "") = true := by simp [hv]
      by_cases hm : optMatches lm o = true <;>
        simp [List.filter, List.find?, hb, hm, ih]

/-- Dropping the empty-valued options does not change the diagnostic
    enumeration either. -/
theorem filterMap_filter_nonempty (opts : List Opt) :
    ((opts.filter fun o => trimVal o != "").filterMap fun o =>
        if trimVal o = "" then none else some (o.label, trimVal o)) =
      opts.filterMap fun o =>
        if trimVal o = "" then none else some (o.label, trimVal o) := by
  induction opts with
  | nil => rfl
  | cons o rest ih =>
    by_cases hv : trimVal o = ""
    · simp [List.filter, List.filterMap, hv, ih]
    · have hb : (trimVal o != "") = true := by simp [hv]
      simp [List.filter, List.filterMap, hv, hb, ih]

/-- C1 (amended): on any address page the selector picks the first option
    in document order that has a nonempty trimmed value attribute and
    whose label contains the match text case-insensitively, returning its
    trimmed value together with its label; if there is no such option it
    fails after enumerating the (label, value) pairs of the nonempty-valued
    options; on the spec's example page, "bastle" selects v1 with label
    "The Bastle Cottage". -/
theorem C1_address_first_match :
    (∀ (opts : List Opt) (lm : String),
      select_address_option (some opts) lm = addressSpecSelect opts lm) ∧
    select_address_option
      (some [⟨some "v1", "The Bastle Cottage"⟩, ⟨some "v2", "1 The Bastle"⟩])
      "bastle" = .found "v1" "The Bastle Cottage" :=
  ⟨select_eq_spec, by decide⟩

/-- C1 counterexample: the first option in document order whose label
    contains "bastle" case-insensitively is "The Bastle Cottage", but its
    value attribute is empty, so the selector skips it and returns the
    second option — the claim's "first option in document order whose
    visible label contains the match substring" is not what is selected. -/
theorem C1_cex_empty_value_first :
    select_address_option
      (some [⟨some "", "The Bastle Cottage"⟩, ⟨some "v2", "1 The Bastle"⟩])
      "bastle" = .found "v2" "1 The Bastle" ∧
    sContainsCI "The Bastle Cottage" "bastle" = true ∧
    ("The Bastle Cottage" : String) ≠ "1 The Bastle" := by
  refine ⟨by decide, by decide, by decide⟩

/-- C10: options whose value attribute is missing or trims to empty are
    invisible to the selector — removing them all changes neither what is
    selected nor the diagnostic enumeration carried by the failure. -/
theorem C10_empty_value_skipped (opts : List Opt) (lm : String) :
    select_address_option (some opts) lm =
      select_address_option (some (opts.filter fun o => trimVal o != "")) lm := by
  rw [select_eq_spec, select_eq_spec]
  unfold addressSpecSelect
  rw [find?_filter_nonempty, filterMap_filter_nonempty]

/-- C2: the schedule parser is exactly the per-card partial extraction,
    in document order: a card with at least three text cells whose third
    cell parses under "%d %B %Y" contributes exactly one record (type,
    day, parsed date, raw text); a card with fewer than three cells
    contributes nothing; a card whose date text fails to parse contributes
    nothing. -/
theorem C2_card_extraction :
    (∀ cards, extract_next_collections cards = cards.filterMap cardRecord) ∧
    (∀ t d dtx rest, cardRecord (t :: d :: dtx :: rest) =
      (parseDateUK dtx).map fun dv => ⟨t, d, dv, dtx⟩) ∧
    (∀ ps, ps.length < 3 → cardRecord ps = none) := by
  refine ⟨?_, ?_, ?_⟩
  · intro cards
    induction cards with
    | nil => rfl
    | cons card rest ih =>
      rcases card with _ | ⟨t, _ | ⟨d, _ | ⟨dtx, r⟩⟩⟩
      · simpa [extract_next_collections, cardRecord] using ih
      · simpa [extract_next_collections, cardRecord] using ih
      · simpa [extract_next_collections, cardRecord] using ih
      · have hlen : ¬((t :: d :: dtx :: r).length < 3) := by
          simp [List.length_cons]
        cases h : parseDateUK dtx <;>
          simp [extract_next_collections, hlen, cardRecord, h, ih]
  · intro t d dtx rest
    cases h : parseDateUK dtx <;> simp [cardRecord, h]
  · intro ps h
    rcases ps with _ | ⟨a, _ | ⟨b, _ | ⟨c, r⟩⟩⟩
    · rfl
    · rfl
    · rfl
    · exfalso; simp [List.length_cons] at h; omega

/-- A join whose last line is `x` ends in `x`. -/
theorem strJoin_last (l : List String) (x : String) :
    ∃ a : List Char, (strJoin "\n" (l ++ [x])).data = a ++ x.data := by
  induction l with
  | nil => exact ⟨[], by simp [strJoin]⟩
  | cons c l' ih =>
    cases l' with
    | nil =>
      refine ⟨(c ++ "\n").data, ?_⟩
      simp [strJoin, String.data_append, List.append_assoc]
    | cons c' l'' =>
      obtain ⟨a, ha⟩ := ih
      refine ⟨(c ++ "\n").data ++ a, ?_⟩
      simp [strJoin, String.data_append, List.append_assoc]
      exact ha

/-- The single template ends in its singular footer. -/
theorem single_tail (b : CollectionRecord) :
    ∃ a : List Char, (single_template b).data =
      a ++ ("Put it out tonight ðŸ‘Œ" : String).data := by
  refine ⟨("ðŸ—‘ï¸ BIN DAY TOMORROW\n\n" ++ b.type ++ " bin\n" ++ "ðŸ“… "
    ++ b.day ++ " " ++ b.raw ++ "\n\n").data, ?_⟩
  simp [single_template, String.data_append, List.append_assoc]

/-- The multi template ends in its plural footer. -/
theorem multi_tail (bs : List CollectionRecord) :
    ∃ a : List Char, (multi_template bs).data =
      a ++ ("Put them out tonight ðŸ‘Œ" : String).data := by
  have h : ["ðŸ—‘ï¸ BIN DAY TOMORROW", ""] ++ bs.map multi_line
      ++ ["", "Put them out tonight ðŸ‘Œ"] =
      (["ðŸ—‘ï¸ BIN DAY TOMORROW", ""] ++ bs.map multi_line ++ [""])
        ++ ["Put them out tonight ðŸ‘Œ"] := by
    simp
  unfold multi_template
  rw [h]
  exact strJoin_last _ _

/-- The two templates can never produce the same text: one ends in the
    singular footer, the other in the plural footer, and neither footer
    is a suffix of the other. -/
theorem single_ne_multi (b : CollectionRecord) (bs : List CollectionRecord) :
    single_template b ≠ multi_template bs := by
  intro heq
  obtain ⟨a, ha⟩ := single_tail b
  obtain ⟨c, hc⟩ := multi_tail bs
  have hd : a ++ ("Put it out tonight ðŸ‘Œ" : String).data =
      c ++ ("Put them out tonight ðŸ‘Œ" : String).data := by
    rw [← ha, ← hc, heq]
  have h2 := congrArg List.reverse hd
  rw [List.reverse_append, List.reverse_append] at h2
  have h3 := congrArg (List.take 23) h2
  rw [List.take_left' (by decide)] at h3
  rw [List.take_append_of_le_length (by decide)] at h3
  exact absurd h3 (by decide)

/-- C7: on exactly one due record the formatter produces the
    single-record template for that record and can never produce any
    multi-record rendering; on two or more records it produces the
    multi-record template and can never produce any single-record
    rendering; it is total on nonempty input. -/
theorem C7_two_templates (due : List CollectionRecord) (hne : due ≠ []) :
    (∀ b, due = [b] → build_reminder_message due = single_template b ∧
      ∀ bs, build_reminder_message due ≠ multi_template bs) ∧
    (2 ≤ due.length → build_reminder_message due = multi_template due ∧
      ∀ b, build_reminder_message due ≠ single_template b) := by
  constructor
  · rintro b rfl
    exact ⟨rfl, fun bs => by
      simpa [build_reminder_message] using single_ne_multi b bs⟩
  · intro h2
    rcases due with _ | ⟨a, _ | ⟨b, rest⟩⟩
    · exact absurd rfl hne
    · exfalso; simp [List.length_cons] at h2
    · refine ⟨rfl, fun b0 heq => ?_⟩
      exact single_ne_multi b0 (a :: b :: rest) heq.symm

/-- C7 witness: the formatter applied to one and to two concrete records. -/
theorem C7_two_templates_witness :
    build_reminder_message
        [⟨"General", "Wednesday", ⟨2026, 2, 25⟩, "25 February 2026"⟩] =
      single_template ⟨"General", "Wednesday", ⟨2026, 2, 25⟩, "25 February 2026"⟩ ∧
    build_reminder_message
        [⟨"General", "Wednesday", ⟨2026, 2, 25⟩, "25 February 2026"⟩,
         ⟨"Recycling", "Thursday", ⟨2026, 2, 26⟩, "26 February 2026"⟩] =
      multi_template
        [⟨"General", "Wednesday", ⟨2026, 2, 25⟩, "25 February 2026"⟩,
         ⟨"Recycling", "Thursday", ⟨2026, 2, 26⟩, "26 February 2026"⟩] :=
  ⟨((C7_two_templates _ (by simp)).1 _ rfl).1,
   ((C7_two_templates _ (by simp)).2 (by simp)).1⟩

/-- C2 witness: a malformed card is dropped and a well-formed card
    becomes one record. -/
theorem C2_card_extraction_witness :
    cardRecord ["Recycling"] = none ∧
    extract_next_collections
        [["General", "Wednesday", "25 February 2026"], ["Recycling"]] =
      [⟨"General", "Wednesday", ⟨2026, 2, 25⟩, "25 February 2026"⟩] :=
  ⟨C2_card_extraction.2.2 ["Recycling"] (by decide),
   (C2_card_extraction.1 _).trans (by decide)⟩

/-- C3: the due filter is a pure filter — it returns a subsequence of its
    input, and a record is kept iff its bin type is in the watch set and
    its collection date equals the reference date exactly. -/
theorem C3_select_due_filter (records : List CollectionRecord)
    (watch : List String) (reference : Date) :
    (select_due records watch reference).Sublist records ∧
    ∀ c, c ∈ select_due records watch reference ↔
      c ∈ records ∧ c.type ∈ watch ∧ c.date = reference := by
  constructor
  · exact (List.filter_sublist _).trans (List.filter_sublist _)
  · intro c
    simp [select_due, List.mem_filter, List.elem_iff, beq_iff_eq, and_assoc]
    tauto

/-- C4 counterexample: the claim says any non-2xx status propagates as a
    failure, but a strict attempt that returns status 304 (not 2xx, not
    4xx/5xx) is returned as a success by `safe_get` — nothing propagates. -/
theorem C4_cex_304 :
    safe_get true ⟨.resp 304, .resp 200⟩ = (.ok 304, [true]) ∧
    ¬(200 ≤ 304 ∧ 304 < 300) := by
  constructor
  · rfl
  · decide

/-- C4 (amended): `safe_post` behaves exactly as `safe_get`; on an SSL
    trust failure with the fallback enabled, exactly one retry of the same
    request is made with verification disabled; with the fallback disabled
    the SSL error propagates unmodified with no retry; a non-SSL transport
    failure or a 4xx/5xx status propagates immediately with no retry. -/
theorem C4_ssl_fallback :
    (∀ a n, safe_post a n = safe_get a n) ∧
    (∀ n : Net, n.strict = .sslErr →
      safe_get true n = (attemptReq n.insecure, [true, false])) ∧
    (∀ n : Net, n.strict = .sslErr →
      safe_get false n = (.error .sslError, [true])) ∧
    (∀ (a : Bool) (n : Net), n.strict = .connErr →
      safe_get a n = (.error .connError, [true])) ∧
    (∀ (a : Bool) (n : Net) (s : Nat), n.strict = .resp s →
      400 ≤ s → s < 600 →
      safe_get a n = (.error (.httpError s), [true])) := by
  refine ⟨fun a n => rfl, ?_, ?_, ?_, ?_⟩
  · intro n h; simp [safe_get, h, attemptReq]
  · intro n h; simp [safe_get, h, attemptReq]
  · intro a n h; simp [safe_get, h, attemptReq]
  · intro a n s h h4 h6
    simp [safe_get, h, attemptReq, raise_for_status, h4, h6]

/-- C4 witness: the amended theorem applied at concrete requests. -/
theorem C4_ssl_fallback_witness :
    safe_post true ⟨.sslErr, .resp 200⟩ = safe_get true ⟨.sslErr, .resp 200⟩ ∧
    safe_get true ⟨.sslErr, .resp 200⟩ = (attemptReq (.resp 200), [true, false]) ∧
    safe_get false ⟨.sslErr, .resp 200⟩ = (.error .sslError, [true]) ∧
    safe_get true ⟨.connErr, .resp 200⟩ = (.error .connError, [true]) ∧
    safe_get true ⟨.resp 503, .resp 200⟩ = (.error (.httpError 503), [true]) :=
  ⟨C4_ssl_fallback.1 true ⟨.sslErr, .resp 200⟩,
   C4_ssl_fallback.2.1 ⟨.sslErr, .resp 200⟩ rfl,
   C4_ssl_fallback.2.2.1 ⟨.sslErr, .resp 200⟩ rfl,
   C4_ssl_fallback.2.2.2.1 true ⟨.connErr, .resp 200⟩ rfl,
   C4_ssl_fallback.2.2.2.2 true ⟨.resp 503, .resp 200⟩ 503 rfl
     (by decide) (by decide)⟩

/-- C6: manual (non-scheduled) triggers — not running under the scheduled
    automation environment, or a trigger other than "schedule" — always
    proceed; a scheduled trigger proceeds iff the London wall clock is in
    the quarter-hour window 19:00-19:14; in particular 19:07 proceeds and
    19:20 does not. -/
theorem C6_run_gate (ga ev : String) (h m : Nat) :
    (ga ≠ "true" → should_run_now_on_github_actions ga ev h m = true) ∧
    (ev ≠ "schedule" → should_run_now_on_github_actions ga ev h m = true) ∧
    (should_run_now_on_github_actions "true" "schedule" h m = true ↔
      h = 19 ∧ m < 15) ∧
    should_run_now_on_github_actions "true" "schedule" 19 7 = true ∧
    should_run_now_on_github_actions "true" "schedule" 19 20 = false := by
  refine ⟨?_, ?_, ?_, by decide, by decide⟩
  · intro hga; simp [should_run_now_on_github_actions, hga]
  · intro hev
    by_cases hga : ga = "true" <;>
      simp [should_run_now_on_github_actions, hga, hev]
  · simp [should_run_now_on_github_actions]

/-- C6 witness: the gate applied at concrete triggers and times. -/
theorem C6_run_gate_witness :
    should_run_now_on_github_actions "" "schedule" 3 0 = true ∧
    should_run_now_on_github_actions "true" "workflow_dispatch" 23 59 = true :=
  ⟨(C6_run_gate "" "schedule" 3 0).1 (by decide),
   (C6_run_gate "true" "workflow_dispatch" 23 59).2.1 (by decide)⟩

/-- `get_csrf` succeeds only on a present, nonempty token. -/
theorem get_csrf_ok_not_bad (i : Option (Option String)) (v : String)
    (h : get_csrf i = .ok v) : ¬csrfBad i := by
  intro hb
  rcases hb with h1 | h1 | h1 <;> subst h1 <;> simp [get_csrf] at h

/-- A selection can only come from a present dropdown containing a
    matching nonempty-valued option. -/
theorem select_found_inv (d : Option (List Opt)) (lm v l : String)
    (h : select_address_option d lm = .found v l) :
    ∃ opts, d = some opts ∧ ∃ o ∈ opts, optMatches lm o = true := by
  cases d with
  | none => simp [select_address_option] at h
  | some opts =>
    refine ⟨opts, rfl, ?_⟩
    rw [select_eq_spec] at h
    unfold addressSpecSelect at h
    cases hf : opts.find? (optMatches lm) with
    | none => rw [hf] at h; simp at h
    | some o =>
      exact ⟨o, List.mem_of_find?_eq_some hf, List.find?_some hf⟩

/-- Inversion: if the walk produced a schedule page, then every check it
    performs along the way succeeded. -/
theorem resolve_ok_facts (eF : Except ReqError EntryPage)
    (pF : Except ReqError AddressPage)
    (aF : Except ReqError (List (List String))) (lm : String)
    (doc : List (List String))
    (h : resolveSchedulePage eF pF aF lm = .ok doc) :
    (∃ p0, eF = .ok p0 ∧ sContains p0.text markerPhrase = true ∧
      ¬csrfBad p0.csrfInput) ∧
    (∃ p1, pF = .ok p1 ∧ ¬csrfBad p1.csrfInput ∧
      formAction p1.form ≠ none ∧
      ∃ opts, p1.dropdown = some opts ∧
        ∃ o ∈ opts, optMatches lm o = true) := by
  cases eF with
  | error e => simp [resolveSchedulePage] at h
  | ok p0 =>
    simp only [resolveSchedulePage] at h
    split at h
    · exact absurd h (by simp)
    rename_i hblk
    split at h
    · exact absurd h (by simp)
    rename_i v0 hc0
    cases pF with
    | error e => exact absurd h (by simp)
    | ok p1 =>
      simp only [] at h
      split at h
      · exact absurd h (by simp)
      rename_i v1 hc1
      split at h
      · exact absurd h (by simp)
      rename_i act hfa
      split at h
      · exact absurd h (by simp)
      · exact absurd h (by simp)
      rename_i v l hs
      obtain ⟨opts, hdrop, hmem⟩ := select_found_inv _ _ _ _ hs
      have hmk : sContains p0.text markerPhrase = true := by
        by_contra hm
        exact hblk (by simp [Bool.eq_false_iff.mpr hm])
      exact ⟨⟨p0, rfl, hmk, get_csrf_ok_not_bad _ _ hc0⟩,
        ⟨p1, rfl, get_csrf_ok_not_bad _ _ hc1,
          by simp [hfa], opts, hdrop, hmem⟩⟩

/-- C5: the walk fails with an error whenever the entry page lacks the
    marker phrase, an anti-forgery token input is absent or empty on
    either page, the address dropdown is absent, no address label
    case-insensitively contains the match substring, or the submission
    form's action attribute is absent. -/
theorem C5_walk_failures (eF : Except ReqError EntryPage)
    (pF : Except ReqError AddressPage)
    (aF : Except ReqError (List (List String))) (lm : String) :
    (∀ p0, eF = .ok p0 → sContains p0.text markerPhrase = false →
      ∃ e, resolveSchedulePage eF pF aF lm = .error e) ∧
    (∀ p0, eF = .ok p0 → csrfBad p0.csrfInput →
      ∃ e, resolveSchedulePage eF pF aF lm = .error e) ∧
    (∀ p1, pF = .ok p1 → csrfBad p1.csrfInput →
      ∃ e, resolveSchedulePage eF pF aF lm = .error e) ∧
    (∀ p1, pF = .ok p1 → p1.dropdown = none →
      ∃ e, resolveSchedulePage eF pF aF lm = .error e) ∧
    (∀ p1 opts, pF = .ok p1 → p1.dropdown = some opts →
      (∀ o ∈ opts, sContainsCI o.label lm = false) →
      ∃ e, resolveSchedulePage eF pF aF lm = .error e) ∧
    (∀ p1, pF = .ok p1 → formAction p1.form = none →
      ∃ e, resolveSchedulePage eF pF aF lm = .error e) := by
  have herr :
      (∀ doc, resolveSchedulePage eF pF aF lm = .ok doc → False) →
      ∃ e, resolveSchedulePage eF pF aF lm = .error e := by
    intro contr
    cases hr : resolveSchedulePage eF pF aF lm with
    | error e => exact ⟨e, rfl⟩
    | ok doc => exact (contr doc hr).elim
  refine ⟨?_, ?_, ?_, ?_, ?_, ?_⟩
  · intro p0 he hmf
    refine herr fun doc hok => ?_
    obtain ⟨⟨p0', he', hmk, -⟩, -⟩ := resolve_ok_facts _ _ _ _ _ hok
    obtain rfl : p0' = p0 := (Except.ok.inj (he.symm.trans he')).symm
    rw [hmf] at hmk
    exact Bool.false_ne_true hmk
  · intro p0 he hbad
    refine herr fun doc hok => ?_
    obtain ⟨⟨p0', he', -, hnb⟩, -⟩ := resolve_ok_facts _ _ _ _ _ hok
    obtain rfl : p0' = p0 := (Except.ok.inj (he.symm.trans he')).symm
    exact hnb hbad
  · intro p1 hp hbad
    refine herr fun doc hok => ?_
    obtain ⟨-, ⟨p1', hp', hnb, -⟩⟩ := resolve_ok_facts _ _ _ _ _ hok
    obtain rfl : p1' = p1 := (Except.ok.inj (hp.symm.trans hp')).symm
    exact hnb hbad
  · intro p1 hp hnone
    refine herr fun doc hok => ?_
    obtain ⟨-, ⟨p1', hp', -, -, opts, hdrop, -⟩⟩ :=
      resolve_ok_facts _ _ _ _ _ hok
    obtain rfl : p1' = p1 := (Except.ok.inj (hp.symm.trans hp')).symm
    rw [hnone] at hdrop
    exact Option.noConfusion hdrop
  · intro p1 opts hp hsome hall
    refine herr fun doc hok => ?_
    obtain ⟨-, ⟨p1', hp', -, -, opts', hdrop, o, ho, hom⟩⟩ :=
      resolve_ok_facts _ _ _ _ _ hok
    obtain rfl : p1' = p1 := (Except.ok.inj (hp.symm.trans hp')).symm
    obtain rfl : opts' = opts := (Option.some.inj (hsome.symm.trans hdrop)).symm
    unfold optMatches at hom
    have hci := (Bool.and_eq_true _ _).mp hom |>.2
    rw [hall o ho] at hci
    exact Bool.false_ne_true hci
  · intro p1 hp hfn
    refine herr fun doc hok => ?_
    obtain ⟨-, ⟨p1', hp', -, hfne, -⟩⟩ := resolve_ok_facts _ _ _ _ _ hok
    obtain rfl : p1' = p1 := (Except.ok.inj (hp.symm.trans hp')).symm
    exact hfne hfn

/-- C5 witness: each failure condition exhibited on a concrete page. -/
theorem C5_walk_failures_witness :
    (∃ e, resolveSchedulePage (.ok ⟨200, "blocked", some (some "t")⟩)
      (.ok ⟨some (some "t1"), some (some "/a"), some [⟨some "v", "X"⟩]⟩)
      (.ok []) "x" = .error e) ∧
    (∃ e, resolveSchedulePage (.ok ⟨200, "Check your bin collection dates",
        none⟩)
      (.ok ⟨some (some "t1"), some (some "/a"), some [⟨some "v", "X"⟩]⟩)
      (.ok []) "x" = .error e) ∧
    (∃ e, resolveSchedulePage (.ok ⟨200, "Check your bin collection dates",
        some (some "t0")⟩)
      (.ok ⟨some none, some (some "/a"), some [⟨some "v", "X"⟩]⟩)
      (.ok []) "x" = .error e) ∧
    (∃ e, resolveSchedulePage (.ok ⟨200, "Check your bin collection dates",
        some (some "t0")⟩)
      (.ok ⟨some (some "t1"), some (some "/a"), none⟩)
      (.ok []) "x" = .error e) ∧
    (∃ e, resolveSchedulePage (.ok ⟨200, "Check your bin collection dates",
        some (some "t0")⟩)
      (.ok ⟨some (some "t1"), some (some "/a"), some [⟨some "v", "AAA"⟩]⟩)
      (.ok []) "zz" = .error e) ∧
    (∃ e, resolveSchedulePage (.ok ⟨200, "Check your bin collection dates",
        some (some "t0")⟩)
      (.ok ⟨some (some "t1"), none, some [⟨some "v", "X"⟩]⟩)
      (.ok []) "x" = .error e) :=
  ⟨(C5_walk_failures _ _ _ _).1 _ rfl (by decide),
   (C5_walk_failures _ _ _ _).2.1 _ rfl (Or.inl rfl),
   (C5_walk_failures _ _ _ _).2.2.1 _ rfl (Or.inr (Or.inl rfl)),
   (C5_walk_failures _ _ _ _).2.2.2.1 _ rfl rfl,
   (C5_walk_failures _ _ _ _).2.2.2.2.1 _ _ rfl rfl (by decide),
   (C5_walk_failures _ _ _ _).2.2.2.2.2 _ rfl rfl⟩

/-- C8 (amended): when the force-test flag is disabled, a run whose walk
    resolves a schedule in which nothing is both watched and due on the
    reference date completes successfully and attempts no notification
    send. -/
theorem C8_no_due_no_send (env : RunEnv) (h : env.force_test = false)
    (doc : List (List String))
    (hw : resolveSchedulePage env.entry_fetch env.postcode_fetch
      env.address_fetch env.address_label_match = .ok doc)
    (hd : select_due (extract_next_collections doc) env.watch_for
      env.tomorrow = []) :
    (mainRun env).1 = .ok () ∧ Event.sendAttempt ∉ (mainRun env).2 := by
  by_cases hs : should_run_now_on_github_actions env.github_actions
      env.github_event env.hour env.minute = false
  · simp [mainRun, hs]
  · by_cases hce : (extract_next_collections doc).isEmpty = true
    · simp [mainRun, hs, h, hw, hce]
    · simp [mainRun, hs, h, hw, hce, hd]

/-- C8 witness: the quiet run — successful scrape, nothing due tomorrow,
    no force-test flag — succeeds without attempting a send. -/
theorem C8_no_due_no_send_witness :
    (mainRun envQuiet).1 = .ok () ∧ Event.sendAttempt ∉ (mainRun envQuiet).2 :=
  C8_no_due_no_send envQuiet rfl sampleDoc rfl (by decide)

/-- C8 counterexample: with the force-test flag set, a run with nothing
    due still completes successfully yet attempts a notification send —
    the empty-due case is not free of external side effects. -/
theorem C8_cex_force_test :
    (mainRun envQuietForced).1 = .ok () ∧
    Event.sendAttempt ∈ (mainRun envQuietForced).2 ∧
    select_due (extract_next_collections sampleDoc) envQuietForced.watch_for
      envQuietForced.tomorrow = [] :=
  ⟨rfl, by decide, by decide⟩

/-- C9 (amended): when the force-test flag is disabled, any notification
    send attempt in a run's event trace is strictly preceded by the
    schedule having been resolved. -/
theorem C9_send_after_scrape (env : RunEnv) (h : env.force_test = false) :
    ∀ i, (mainRun env).2.get? i = some Event.sendAttempt →
      ∃ j, j < i ∧ (mainRun env).2.get? j = some Event.scheduleResolved := by
  have htr : (mainRun env).2 = [] ∨
      (mainRun env).2 = [Event.scheduleResolved] ∨
      (mainRun env).2 = [Event.scheduleResolved, Event.sendAttempt] := by
    by_cases hs : should_run_now_on_github_actions env.github_actions
        env.github_event env.hour env.minute = false
    · left; simp [mainRun, hs]
    · cases hw : resolveSchedulePage env.entry_fetch env.postcode_fetch
          env.address_fetch env.address_label_match with
      | error e => left; simp [mainRun, hs, h, hw]
      | ok doc =>
        by_cases hce : (extract_next_collections doc).isEmpty = true
        · right; left; simp [mainRun, hs, h, hw, hce]
        · by_cases hde : (select_due (extract_next_collections doc)
              env.watch_for env.tomorrow).isEmpty = true
          · right; left; simp [mainRun, hs, h, hw, hce, hde]
          · right; right; simp [mainRun, hs, h, hw, hce, hde]
  intro i hi
  rcases htr with ht | ht | ht <;> rw [ht] at hi
  · simp at hi
  · rcases i with _ | i <;> simp [List.get?] at hi
  · rcases i with _ | _ | i
    · simp [List.get?] at hi
    · exact ⟨0, Nat.zero_lt_one, by rw [ht]; rfl⟩
    · simp [List.get?] at hi

/-- C9 witness: in the successful reminder run the send at trace index 1
    is preceded by the schedule resolution at index 0. -/
theorem C9_send_after_scrape_witness :
    ∃ j, j < 1 ∧ (mainRun envReminder).2.get? j = some Event.scheduleResolved :=
  C9_send_after_scrape envReminder rfl 1 (by decide)

/-- C9 counterexample: with the force-test flag set, a send is attempted
    as the very first event even though the scrape then fails and the
    schedule is never resolved. -/
theorem C9_cex_force_test :
    (mainRun envEntryDownForced).2 = [Event.sendAttempt] ∧
    Event.scheduleResolved ∉ (mainRun envEntryDownForced).2 :=
  ⟨rfl, by decide⟩
